import Mathlib

/-!
Shallow embedding of the MyGenericLogger repository
(src/GenericLogger/Logger.h, src/GenericLogger/Logger.cpp).

The logger state is the instance's mutable fields (m_LogLevel, m_LogType)
together with the contents of the two output sinks (the log file and the
console stream), each modelled as the list of lines written so far.
Each logging operation returns the updated state paired with the trace of
events it performed (lock, unlock, file write, console write), so that the
mutual-exclusion discipline can be stated over the trace.

External collaborators that the spec places out of scope are modelled as
inputs: the timestamp string produced by utils::Utils::getCurrentTime() is
a parameter of each write, the enclosing-scope name produced by
utils::Utils::className(pretty_func) is taken directly as a string
parameter, and the configuration read performed by Utils::ConfigFile is an
Except value handed to getLogLevel.

C++ enum values are embedded as Int constants with the values given in
Logger.h; the LOG_LEVEL enum is backed by int, so thresholds and message
levels are Int throughout.
-/

/-- LOG_LEVEL value ALWAYS_LOG_THIS = INT8_MIN (Logger.h line 26). -/
def ALWAYS_LOG_THIS : Int := -128

/-- LOG_LEVEL value DISABLE_LOG = 0 (Logger.h line 27). -/
def DISABLE_LOG : Int := 0

/-- LOG_LEVEL value LOG_LEVEL_FATAL = 1 (Logger.h line 28). -/
def LOG_LEVEL_FATAL : Int := 1

/-- LOG_LEVEL value LOG_LEVEL_ERROR = 2 (Logger.h line 29). -/
def LOG_LEVEL_ERROR : Int := 2

/-- LOG_LEVEL value LOG_LEVEL_WARNING = 3 (Logger.h line 30). -/
def LOG_LEVEL_WARNING : Int := 3

/-- LOG_LEVEL value LOG_LEVEL_INFO = 4 (Logger.h line 31). -/
def LOG_LEVEL_INFO : Int := 4

/-- LOG_LEVEL value LOG_LEVEL_DEBUG = 5 (Logger.h line 32). -/
def LOG_LEVEL_DEBUG : Int := 5

/-- LOG_LEVEL value LOG_LEVEL_TRACE = 6 (Logger.h line 33). -/
def LOG_LEVEL_TRACE : Int := 6

/-- LOG_LEVEL value LOG_LEVEL_BUFFER = 7 (Logger.h line 34). -/
def LOG_LEVEL_BUFFER : Int := 7

/-- LOG_LEVEL value LOG_LEVEL_ALL = 8 (Logger.h line 35). -/
def LOG_LEVEL_ALL : Int := 8

/-- enum LOG_TYPE (Logger.h lines 56-61). -/
inductive LogType where
  | NO_LOG
  | CONSOLE
  | FILE_LOG
deriving DecidableEq, Repr

/-- Tag "[ALWAYS]: " (Logger.cpp line 22). -/
def ALWAYS_TAG : String := "[ALWAYS]: "

/-- Tag "[FATAL]: " (Logger.cpp line 25). -/
def FATAL_TAG : String := "[FATAL]: "

/-- Tag "[ERROR]: " (Logger.cpp line 26). -/
def ERROR_TAG : String := "[ERROR]: "

/-- Tag "[WARNING]: " (Logger.cpp line 27). -/
def WARNING_TAG : String := "[WARNING]: "

/-- Tag "[INFO]: " (Logger.cpp line 28). -/
def INFO_TAG : String := "[INFO]: "

/-- Tag "[DEBUG]: " (Logger.cpp line 29). -/
def DEBUG_TAG : String := "[DEBUG]: "

/-- Tag "[TRACE]: " (Logger.cpp line 30). -/
def TRACE_TAG : String := "[TRACE]: "

/-- Modelled from the spec: EMPTY_STR comes from Utils.h, which is not under
src/; it is the empty string used as the tag of untagged levels. -/
def EMPTY_STR : String := ""

/-- One observable action of a logging operation: acquiring or releasing the
mutex (Logger::lock / Logger::unlock) or writing one line to a sink. -/
inductive LogEvent where
  | lockEv
  | unlockEv
  | writeFile (line : String)
  | writeConsole (line : String)
deriving DecidableEq, Repr

/-- The logger instance state: the fields m_LogLevel and m_LogType of class
Logger (Logger.h lines 195-196) plus the lines accumulated in each sink.
fileLines models the contents of m_File (append-only), consoleLines the
lines written to std::cout. -/
structure Logger where
  m_LogLevel : Int
  m_LogType : LogType
  fileLines : List String
  consoleLines : List String
deriving DecidableEq, Repr

/-- Logger::getLogTypeTag (Logger.cpp lines 180-195): the switch over the
level; levels outside FATAL..TRACE fall through to EMPTY_STR. -/
def Logger.getLogTypeTag (level : Int) : String :=
  if level = LOG_LEVEL_FATAL then FATAL_TAG
  else if level = LOG_LEVEL_ERROR then ERROR_TAG
  else if level = LOG_LEVEL_WARNING then WARNING_TAG
  else if level = LOG_LEVEL_INFO then INFO_TAG
  else if level = LOG_LEVEL_DEBUG then DEBUG_TAG
  else if level = LOG_LEVEL_TRACE then TRACE_TAG
  else EMPTY_STR

/-- Logger::logIntoFile (Logger.cpp lines 232-237): lock, write one line
consisting of the current time, two spaces and the data, then unlock.
The timestamp collaborator's output is the parameter now. -/
def Logger.logIntoFile (s : Logger) (data : String) (now : String) :
    Logger × List LogEvent :=
  let line := now ++ "  " ++ data
  ({ s with fileLines := s.fileLines ++ [line] },
   [LogEvent.lockEv, LogEvent.writeFile line, LogEvent.unlockEv])

/-- Logger::logOnConsole (Logger.cpp lines 242-245): write one line (current
time, two spaces, data) to std::cout. No lock is taken in the source. -/
def Logger.logOnConsole (s : Logger) (data : String) (now : String) :
    Logger × List LogEvent :=
  let line := now ++ "  " ++ data
  ({ s with consoleLines := s.consoleLines ++ [line] },
   [LogEvent.writeConsole line])

/-- Logger::logInto (Logger.cpp lines 217-227): dispatch on m_LogType (the
parameter type is accepted but, as in the source, not consulted); NO_LOG
matches neither branch, so nothing happens. -/
def Logger.logInto (s : Logger) (data : String) (type : LogType)
    (now : String) : Logger × List LogEvent :=
  match s.m_LogType with
  | LogType.FILE_LOG => Logger.logIntoFile s data now
  | LogType.CONSOLE => Logger.logOnConsole s data now
  | LogType.NO_LOG => (s, [])

/-- Logger::user_log, const char* overload (Logger.cpp lines 161-175):
return immediately when m_LogLevel < level, otherwise build
tag ++ scope ++ "::" ++ func_name ++ "() - " ++ text and hand it to logInto.
The parameter scope stands for utils::Utils::className(pretty_func), the
enclosing-scope name supplied by the collaborator (Utils.h is not under
src/; per the spec the origin tag is a pair of caller-supplied labels). -/
def Logger.user_log (s : Logger) (level : Int) (scope : String)
    (func_name : String) (text : String) (now : String) :
    Logger × List LogEvent :=
  if s.m_LogLevel < level then (s, [])
  else
    Logger.logInto s
      (Logger.getLogTypeTag level ++ scope ++ "::" ++ func_name ++ "() - "
        ++ text)
      s.m_LogType now

/-- The LOG_ALWAYS macro (Logger.h line 43): it expands to a user_log call
at LOG_LEVEL_FATAL, so it goes through the ordinary threshold check. -/
def LOG_ALWAYS (s : Logger) (scope : String) (func_name : String)
    (text : String) (now : String) : Logger × List LogEvent :=
  Logger.user_log s LOG_LEVEL_FATAL scope func_name text now

/-- The string GCC substitutes for the PRETTY_FUNCTION identifier inside
Logger::persistent_logging (Logger.cpp line 109); its exact text does not
matter to any claim, only that it is a fixed infix of every persistent
line. -/
def PERSISTENT_PRETTY_FUNCTION : String :=
  "void CPlusPlusLogging::Logger::persistent_logging(const std::string&, const char*)"

/-- Logger::persistent_logging (Logger.cpp lines 105-113): no threshold
check; builds tag ++ PRETTY_FUNCTION ++ text and hands it to logInto. -/
def Logger.persistent_logging (s : Logger) (tag : String) (text : String)
    (now : String) : Logger × List LogEvent :=
  Logger.logInto s (tag ++ PERSISTENT_PRETTY_FUNCTION ++ text) s.m_LogType
    now

/-- Logger::buffer_log, const char* overload (Logger.cpp lines 124-139):
threshold check, then write the raw text with no timestamp and no tag; the
file branch locks around the write, the console branch does not. -/
def Logger.buffer_log (s : Logger) (level : Int) (text : String) :
    Logger × List LogEvent :=
  if s.m_LogLevel < level then (s, [])
  else
    match s.m_LogType with
    | LogType.FILE_LOG =>
        ({ s with fileLines := s.fileLines ++ [text] },
         [LogEvent.lockEv, LogEvent.writeFile text, LogEvent.unlockEv])
    | LogType.CONSOLE =>
        ({ s with consoleLines := s.consoleLines ++ [text] },
         [LogEvent.writeConsole text])
    | LogType.NO_LOG => (s, [])

/-- Logger::Logger (Cpp lines 35-58): the constructor run by the first
getInstance() call. It opens the log file in append mode - so the lines
already in the file are kept, modelled by the parameter existing - and sets
m_LogLevel to LOG_LEVEL_TRACE and m_LogType to FILE_LOG. -/
def Logger.init (existing : List String) : Logger :=
  { m_LogLevel := LOG_LEVEL_TRACE
    m_LogType := LogType.FILE_LOG
    fileLines := existing
    consoleLines := [] }

/-- Logger::setLogLevel (Logger.cpp lines 251-254). -/
def Logger.setLogLevel (s : Logger) (logLevel : Int) : Logger :=
  { s with m_LogLevel := logLevel }

/-- Logger::setLogType (Logger.cpp lines 259-262). -/
def Logger.setLogType (s : Logger) (logType : LogType) : Logger :=
  { s with m_LogType := logType }

/-- Logger::enableAllLog (Logger.cpp lines 267-270). -/
def Logger.enableAllLog (s : Logger) : Logger :=
  { s with m_LogLevel := LOG_LEVEL_ALL }

/-- Logger::disableLog (Logger.cpp lines 275-278). -/
def Logger.disableLog (s : Logger) : Logger :=
  { s with m_LogLevel := DISABLE_LOG }

/-- The error kinds the catch clauses of Logger::getLogLevel distinguish
(Logger.cpp lines 82-91): ConfigFile::file_not_found and everything else. -/
inductive ConfigError where
  | file_not_found
  | other
deriving DecidableEq, Repr

/-- Logger::getLogLevel (Logger.cpp lines 68-94): the configuration
collaborator (Utils::ConfigFile, out of scope per the spec) either yields
the integer read under the key logging_level or throws; the function
returns that integer cast to LOG_LEVEL, and on any exception falls through
to return LOG_LEVEL_INFO. -/
def Logger.getLogLevel (conf : Except ConfigError Int) : Int :=
  match conf with
  | Except.ok n => n
  | Except.error _ => LOG_LEVEL_INFO

/-- Logger::getLogLevel viewed as an operation on the instance state: the
function is static and assigns no member, so the state passes through
unchanged. -/
def Logger.runGetLogLevel (s : Logger) (conf : Except ConfigError Int) :
    Int × Logger :=
  (Logger.getLogLevel conf, s)

/-- The lines of the currently active destination: the file contents under
FILE_LOG, the console contents under CONSOLE, nothing under NO_LOG. -/
def Logger.activeLines (s : Logger) : List String :=
  match s.m_LogType with
  | LogType.FILE_LOG => s.fileLines
  | LogType.CONSOLE => s.consoleLines
  | LogType.NO_LOG => []

/-- The lines of the inactive sink (console under FILE_LOG and conversely). -/
def Logger.otherLines (s : Logger) : List String :=
  match s.m_LogType with
  | LogType.FILE_LOG => s.consoleLines
  | LogType.CONSOLE => s.fileLines
  | LogType.NO_LOG => []

/-- C1: for every leveled-family level (fatal through trace) and every
threshold, a user_log call writes exactly one line to the active
destination exactly when the threshold is at or above the level in the
ordered enumeration (threshold numerically at least the level); otherwise
it writes nothing and has no effect at all. -/
theorem C1_user_log_threshold (s : Logger) (level : Int)
    (scope func_name text now : String)
    (hlo : LOG_LEVEL_FATAL ≤ level) (hhi : level ≤ LOG_LEVEL_TRACE)
    (hd : s.m_LogType ≠ LogType.NO_LOG) :
    (level ≤ s.m_LogLevel →
      (Logger.user_log s level scope func_name text now).1.activeLines =
        s.activeLines ++
          [now ++ "  " ++ Logger.getLogTypeTag level ++ scope ++ "::" ++
            func_name ++ "() - " ++ text] ∧
      (Logger.user_log s level scope func_name text now).1.otherLines =
        s.otherLines ∧
      (Logger.user_log s level scope func_name text now).1.m_LogLevel =
        s.m_LogLevel ∧
      (Logger.user_log s level scope func_name text now).1.m_LogType =
        s.m_LogType) ∧
    (s.m_LogLevel < level →
      Logger.user_log s level scope func_name text now = (s, [])) := by
  obtain ⟨T, ty, fl, cl⟩ := s
  constructor
  · intro hge
    have hnl : ¬ (T < level) := not_lt.mpr hge
    cases ty with
    | NO_LOG => exact absurd rfl hd
    | CONSOLE =>
        simp [Logger.user_log, Logger.logInto, Logger.logOnConsole,
          Logger.activeLines, Logger.otherLines, hnl, String.append_assoc]
    | FILE_LOG =>
        simp [Logger.user_log, Logger.logInto, Logger.logIntoFile,
          Logger.activeLines, Logger.otherLines, hnl, String.append_assoc]
  · intro hlt
    simp [Logger.user_log, hlt]

/-- Witness for C1 at level info with threshold info and file destination:
the call writes the one formatted line; lifting the threshold below info
suppresses it. -/
theorem C1_user_log_threshold_witness :
    ((4 : Int) ≤ (⟨4, LogType.FILE_LOG, [], []⟩ : Logger).m_LogLevel →
      (Logger.user_log ⟨4, LogType.FILE_LOG, [], []⟩ 4 "Scope" "func" "msg"
          "TS").1.activeLines =
        (⟨4, LogType.FILE_LOG, [], []⟩ : Logger).activeLines ++
          ["TS" ++ "  " ++ Logger.getLogTypeTag 4 ++ "Scope" ++ "::" ++
            "func" ++ "() - " ++ "msg"] ∧
      (Logger.user_log ⟨4, LogType.FILE_LOG, [], []⟩ 4 "Scope" "func" "msg"
          "TS").1.otherLines =
        (⟨4, LogType.FILE_LOG, [], []⟩ : Logger).otherLines ∧
      (Logger.user_log ⟨4, LogType.FILE_LOG, [], []⟩ 4 "Scope" "func" "msg"
          "TS").1.m_LogLevel =
        (⟨4, LogType.FILE_LOG, [], []⟩ : Logger).m_LogLevel ∧
      (Logger.user_log ⟨4, LogType.FILE_LOG, [], []⟩ 4 "Scope" "func" "msg"
          "TS").1.m_LogType =
        (⟨4, LogType.FILE_LOG, [], []⟩ : Logger).m_LogType) ∧
    ((⟨4, LogType.FILE_LOG, [], []⟩ : Logger).m_LogLevel < 4 →
      Logger.user_log ⟨4, LogType.FILE_LOG, [], []⟩ 4 "Scope" "func" "msg"
        "TS" = (⟨4, LogType.FILE_LOG, [], []⟩, [])) :=
  C1_user_log_threshold ⟨4, LogType.FILE_LOG, [], []⟩ 4 "Scope" "func"
    "msg" "TS" (by decide) (by decide) (by decide)

/-- C8: a leveled call whose level is more restrictive than the current
threshold returns immediately: the state is unchanged and the trace is
empty, so nothing is written and the lock is never acquired. -/
theorem C8_filtered_no_effect (s : Logger) (level : Int)
    (scope func_name text now : String) (h : s.m_LogLevel < level) :
    Logger.user_log s level scope func_name text now = (s, []) := by
  simp [Logger.user_log, h]

/-- Witness for C8: threshold warning, level info, nothing happens. -/
theorem C8_filtered_no_effect_witness :
    (⟨3, LogType.FILE_LOG, [], []⟩ : Logger).m_LogLevel < 4 ∧
    Logger.user_log ⟨3, LogType.FILE_LOG, [], []⟩ 4 "Scope" "func" "msg"
      "TS" = (⟨3, LogType.FILE_LOG, [], []⟩, []) :=
  ⟨by decide,
   C8_filtered_no_effect ⟨3, LogType.FILE_LOG, [], []⟩ 4 "Scope" "func"
     "msg" "TS" (by decide)⟩

/-- C10: under destination NO_LOG each logging entry point leaves the state
(threshold, destination and both sinks) unchanged and performs no event,
whatever the level. -/
theorem C10_no_log_silent (s : Logger) (level : Int)
    (scope func_name text tag now : String)
    (h : s.m_LogType = LogType.NO_LOG) :
    Logger.user_log s level scope func_name text now = (s, []) ∧
    Logger.buffer_log s level text = (s, []) ∧
    Logger.persistent_logging s tag text now = (s, []) := by
  obtain ⟨T, ty, fl, cl⟩ := s
  have hty : ty = LogType.NO_LOG := h
  subst hty
  refine ⟨?_, ?_, ?_⟩
  · by_cases hT : T < level <;>
      simp [Logger.user_log, Logger.logInto, hT]
  · by_cases hT : T < level <;>
      simp [Logger.buffer_log, hT]
  · simp [Logger.persistent_logging, Logger.logInto]

/-- Witness for C10: NO_LOG destination, most verbose threshold, all three
entry points do nothing. -/
theorem C10_no_log_silent_witness :
    (⟨8, LogType.NO_LOG, [], []⟩ : Logger).m_LogType = LogType.NO_LOG ∧
    (Logger.user_log ⟨8, LogType.NO_LOG, [], []⟩ 1 "Scope" "func" "msg"
        "TS" = (⟨8, LogType.NO_LOG, [], []⟩, []) ∧
      Logger.buffer_log ⟨8, LogType.NO_LOG, [], []⟩ 1 "msg" =
        (⟨8, LogType.NO_LOG, [], []⟩, []) ∧
      Logger.persistent_logging ⟨8, LogType.NO_LOG, [], []⟩ "[ALWAYS]: "
        "msg" "TS" = (⟨8, LogType.NO_LOG, [], []⟩, [])) :=
  ⟨by decide,
   C10_no_log_silent ⟨8, LogType.NO_LOG, [], []⟩ 1 "Scope" "func" "msg"
     "[ALWAYS]: " "TS" (by decide)⟩

/-- Counterexample to C2 as stated: the "always" macro LOG_ALWAYS expands to
user_log at LOG_LEVEL_FATAL, so with the threshold at DISABLE_LOG an
always-family call writes nothing at all - the threshold check is not
bypassed on that path. -/
theorem C2_always_macro_filtered :
    LOG_ALWAYS ⟨DISABLE_LOG, LogType.CONSOLE, [], []⟩ "Scope" "func"
        "startup banner" "TS" =
      (⟨DISABLE_LOG, LogType.CONSOLE, [], []⟩, []) := by
  decide

/-- C2 amended: calls through Logger::persistent_logging bypass the
threshold check entirely - for every state, every threshold value included,
with an active destination they append exactly one line and leave the
threshold and destination unchanged; the conclusion never consults
m_LogLevel. (The LOG_ALWAYS macro, by contrast, is threshold-checked.) -/
theorem C2_persistent_bypass (s : Logger) (tag text now : String)
    (hd : s.m_LogType ≠ LogType.NO_LOG) :
    (Logger.persistent_logging s tag text now).1.activeLines =
      s.activeLines ++
        [now ++ "  " ++ tag ++ PERSISTENT_PRETTY_FUNCTION ++ text] ∧
    (Logger.persistent_logging s tag text now).1.otherLines =
      s.otherLines ∧
    (Logger.persistent_logging s tag text now).1.m_LogLevel =
      s.m_LogLevel ∧
    (Logger.persistent_logging s tag text now).1.m_LogType = s.m_LogType := by
  obtain ⟨T, ty, fl, cl⟩ := s
  cases ty with
  | NO_LOG => exact absurd rfl hd
  | CONSOLE =>
      simp [Logger.persistent_logging, Logger.logInto, Logger.logOnConsole,
        Logger.activeLines, Logger.otherLines, String.append_assoc]
  | FILE_LOG =>
      simp [Logger.persistent_logging, Logger.logInto, Logger.logIntoFile,
        Logger.activeLines, Logger.otherLines, String.append_assoc]

/-- Witness for the amended C2: with the threshold at DISABLE_LOG and the
file destination, persistent_logging still writes its one line. -/
theorem C2_persistent_bypass_witness :
    (⟨DISABLE_LOG, LogType.FILE_LOG, [], []⟩ : Logger).m_LogType ≠
      LogType.NO_LOG ∧
    ((Logger.persistent_logging ⟨DISABLE_LOG, LogType.FILE_LOG, [], []⟩
          "[ALWAYS]: " "msg" "TS").1.activeLines =
        (⟨DISABLE_LOG, LogType.FILE_LOG, [], []⟩ : Logger).activeLines ++
          ["TS" ++ "  " ++ "[ALWAYS]: " ++ PERSISTENT_PRETTY_FUNCTION ++
            "msg"] ∧
      (Logger.persistent_logging ⟨DISABLE_LOG, LogType.FILE_LOG, [], []⟩
          "[ALWAYS]: " "msg" "TS").1.otherLines =
        (⟨DISABLE_LOG, LogType.FILE_LOG, [], []⟩ : Logger).otherLines ∧
      (Logger.persistent_logging ⟨DISABLE_LOG, LogType.FILE_LOG, [], []⟩
          "[ALWAYS]: " "msg" "TS").1.m_LogLevel =
        (⟨DISABLE_LOG, LogType.FILE_LOG, [], []⟩ : Logger).m_LogLevel ∧
      (Logger.persistent_logging ⟨DISABLE_LOG, LogType.FILE_LOG, [], []⟩
          "[ALWAYS]: " "msg" "TS").1.m_LogType =
        (⟨DISABLE_LOG, LogType.FILE_LOG, [], []⟩ : Logger).m_LogType) :=
  ⟨by decide,
   C2_persistent_bypass ⟨DISABLE_LOG, LogType.FILE_LOG, [], []⟩
     "[ALWAYS]: " "msg" "TS" (by decide)⟩

/-- C4: with an active destination, a buffer_log call at the dedicated
buffer level writes the raw text as one line - no timestamp, no level tag,
no origin prefix - exactly when the threshold is at or above
LOG_LEVEL_BUFFER, and otherwise does nothing at all. -/
theorem C4_buffer_raw (s : Logger) (text : String)
    (hd : s.m_LogType ≠ LogType.NO_LOG) :
    (LOG_LEVEL_BUFFER ≤ s.m_LogLevel →
      (Logger.buffer_log s LOG_LEVEL_BUFFER text).1.activeLines =
        s.activeLines ++ [text] ∧
      (Logger.buffer_log s LOG_LEVEL_BUFFER text).1.otherLines =
        s.otherLines ∧
      (Logger.buffer_log s LOG_LEVEL_BUFFER text).1.m_LogLevel =
        s.m_LogLevel ∧
      (Logger.buffer_log s LOG_LEVEL_BUFFER text).1.m_LogType =
        s.m_LogType) ∧
    (s.m_LogLevel < LOG_LEVEL_BUFFER →
      Logger.buffer_log s LOG_LEVEL_BUFFER text = (s, [])) := by
  obtain ⟨T, ty, fl, cl⟩ := s
  constructor
  · intro hge
    have hnl : ¬ (T < LOG_LEVEL_BUFFER) := not_lt.mpr hge
    cases ty with
    | NO_LOG => exact absurd rfl hd
    | CONSOLE =>
        simp [Logger.buffer_log, Logger.activeLines, Logger.otherLines, hnl]
    | FILE_LOG =>
        simp [Logger.buffer_log, Logger.activeLines, Logger.otherLines, hnl]
  · intro hlt
    simp [Logger.buffer_log, hlt]

/-- Witness for C4: threshold at LOG_LEVEL_ALL, console destination; the
buffer call appends the raw text unchanged. -/
theorem C4_buffer_raw_witness :
    (⟨8, LogType.CONSOLE, [], []⟩ : Logger).m_LogType ≠ LogType.NO_LOG ∧
    ((LOG_LEVEL_BUFFER ≤ (⟨8, LogType.CONSOLE, [], []⟩ : Logger).m_LogLevel →
      (Logger.buffer_log ⟨8, LogType.CONSOLE, [], []⟩ LOG_LEVEL_BUFFER
          "raw bytes").1.activeLines =
        (⟨8, LogType.CONSOLE, [], []⟩ : Logger).activeLines ++
          ["raw bytes"] ∧
      (Logger.buffer_log ⟨8, LogType.CONSOLE, [], []⟩ LOG_LEVEL_BUFFER
          "raw bytes").1.otherLines =
        (⟨8, LogType.CONSOLE, [], []⟩ : Logger).otherLines ∧
      (Logger.buffer_log ⟨8, LogType.CONSOLE, [], []⟩ LOG_LEVEL_BUFFER
          "raw bytes").1.m_LogLevel =
        (⟨8, LogType.CONSOLE, [], []⟩ : Logger).m_LogLevel ∧
      (Logger.buffer_log ⟨8, LogType.CONSOLE, [], []⟩ LOG_LEVEL_BUFFER
          "raw bytes").1.m_LogType =
        (⟨8, LogType.CONSOLE, [], []⟩ : Logger).m_LogType) ∧
    ((⟨8, LogType.CONSOLE, [], []⟩ : Logger).m_LogLevel < LOG_LEVEL_BUFFER →
      Logger.buffer_log ⟨8, LogType.CONSOLE, [], []⟩ LOG_LEVEL_BUFFER
        "raw bytes" = (⟨8, LogType.CONSOLE, [], []⟩, []))) :=
  ⟨by decide,
   C4_buffer_raw ⟨8, LogType.CONSOLE, [], []⟩ "raw bytes" (by decide)⟩

/-- Whether every write event (file or console) in the trace happens while
at least one lock acquisition is outstanding; d counts the lock depth
already held when the trace starts. -/
def allWritesLocked (d : Nat) : List LogEvent → Bool
  | [] => true
  | LogEvent.lockEv :: tr => allWritesLocked (d + 1) tr
  | LogEvent.unlockEv :: tr => allWritesLocked (d - 1) tr
  | LogEvent.writeFile _ :: tr => decide (0 < d) && allWritesLocked d tr
  | LogEvent.writeConsole _ :: tr => decide (0 < d) && allWritesLocked d tr

/-- Whether every file-write event in the trace happens while at least one
lock acquisition is outstanding; console writes are not constrained. -/
def fileWritesLocked (d : Nat) : List LogEvent → Bool
  | [] => true
  | LogEvent.lockEv :: tr => fileWritesLocked (d + 1) tr
  | LogEvent.unlockEv :: tr => fileWritesLocked (d - 1) tr
  | LogEvent.writeFile _ :: tr => decide (0 < d) && fileWritesLocked d tr
  | LogEvent.writeConsole _ :: tr => fileWritesLocked d tr

/-- Whether the trace never releases a lock that is not held and ends with
no lock held: the lock is released on every exit path. -/
def lockBalanced (d : Nat) : List LogEvent → Bool
  | [] => d == 0
  | LogEvent.lockEv :: tr => lockBalanced (d + 1) tr
  | LogEvent.unlockEv :: tr => decide (0 < d) && lockBalanced (d - 1) tr
  | LogEvent.writeFile _ :: tr => lockBalanced d tr
  | LogEvent.writeConsole _ :: tr => lockBalanced d tr

/-- Counterexample to C3 as stated: a user_log call with the console
destination performs its console write with no lock held (logOnConsole
never takes the mutex), so not every sink write happens under the lock. -/
theorem C3_console_write_unlocked :
    allWritesLocked 0
      (Logger.user_log ⟨LOG_LEVEL_TRACE, LogType.CONSOLE, [], []⟩
        LOG_LEVEL_INFO "Scope" "func" "msg" "TS").2 = false := by
  decide

/-- C3 amended: every file write of every logging operation happens while
the lock is held, and every operation's trace is lock-balanced - it never
releases a lock it does not hold and it ends with the lock released, on
every path; console writes, however, are performed without the lock. -/
theorem C3_lock_discipline (s : Logger) (level : Int)
    (scope func_name text tag now : String) :
    (fileWritesLocked 0
        (Logger.user_log s level scope func_name text now).2 = true ∧
      lockBalanced 0
        (Logger.user_log s level scope func_name text now).2 = true) ∧
    (fileWritesLocked 0 (Logger.buffer_log s level text).2 = true ∧
      lockBalanced 0 (Logger.buffer_log s level text).2 = true) ∧
    (fileWritesLocked 0 (Logger.persistent_logging s tag text now).2 = true ∧
      lockBalanced 0 (Logger.persistent_logging s tag text now).2 = true) := by
  obtain ⟨T, ty, fl, cl⟩ := s
  by_cases h : T < level <;> cases ty <;>
    simp [Logger.user_log, Logger.buffer_log, Logger.persistent_logging,
      Logger.logInto, Logger.logIntoFile, Logger.logOnConsole, h,
      allWritesLocked, fileWritesLocked, lockBalanced]

/-- Logger::getLogLevel theorems, C5: on any configuration failure the
default LOG_LEVEL_INFO comes back, on success the configured integer comes
back as the level - value 2 being LOG_LEVEL_ERROR - and the instance state
passes through unchanged (the function is static and assigns no member). -/
theorem C5_getLogLevel_fallback (s : Logger) (e : ConfigError) (n : Int)
    (conf : Except ConfigError Int) :
    Logger.getLogLevel (Except.error e) = LOG_LEVEL_INFO ∧
    Logger.getLogLevel (Except.ok n) = n ∧
    Logger.getLogLevel (Except.ok 2) = LOG_LEVEL_ERROR ∧
    (Logger.runGetLogLevel s conf).1 = Logger.getLogLevel conf ∧
    (Logger.runGetLogLevel s conf).2 = s :=
  ⟨rfl, rfl, rfl, rfl, rfl⟩

/-- C6: with the file destination and a passing threshold, user_log appends
to the file exactly one line of the form timestamp, two spaces, level tag,
origin scope, "::", function name, "() - ", message body; and the fatal
tag is the string "[FATAL]: ", so a fatal message with body "disk full"
ends in "[FATAL]: Scope::func() - disk full" after the timestamp. -/
theorem C6_file_line_format (s : Logger) (level : Int)
    (scope func_name text now : String)
    (hty : s.m_LogType = LogType.FILE_LOG) (hge : level ≤ s.m_LogLevel) :
    (Logger.user_log s level scope func_name text now).1.fileLines =
      s.fileLines ++
        [now ++ "  " ++ Logger.getLogTypeTag level ++ scope ++ "::" ++
          func_name ++ "() - " ++ text] ∧
    Logger.getLogTypeTag LOG_LEVEL_FATAL = "[FATAL]: " := by
  obtain ⟨T, ty, fl, cl⟩ := s
  have hnl : ¬ (T < level) := not_lt.mpr hge
  have hty2 : ty = LogType.FILE_LOG := hty
  subst hty2
  constructor
  · simp [Logger.user_log, Logger.logInto, Logger.logIntoFile, hnl,
      String.append_assoc]
  · decide

/-- Witness for C6: a fatal call with body "disk full" on the default
instance produces the one line TS  [FATAL]: Scope::func() - disk full. -/
theorem C6_file_line_format_witness :
    (⟨6, LogType.FILE_LOG, [], []⟩ : Logger).m_LogType = LogType.FILE_LOG ∧
    (1 : Int) ≤ (⟨6, LogType.FILE_LOG, [], []⟩ : Logger).m_LogLevel ∧
    ((Logger.user_log ⟨6, LogType.FILE_LOG, [], []⟩ 1 "Scope" "func"
          "disk full" "TS").1.fileLines =
        (⟨6, LogType.FILE_LOG, [], []⟩ : Logger).fileLines ++
          ["TS" ++ "  " ++ Logger.getLogTypeTag 1 ++ "Scope" ++ "::" ++
            "func" ++ "() - " ++ "disk full"] ∧
      Logger.getLogTypeTag LOG_LEVEL_FATAL = "[FATAL]: ") :=
  ⟨by decide, by decide,
   C6_file_line_format ⟨6, LogType.FILE_LOG, [], []⟩ 1 "Scope" "func"
     "disk full" "TS" (by decide) (by decide)⟩

/-- Counterexample to C7 as stated: the constructor's default threshold is
not the most-verbose value - enableAllLog, which the spec describes as
setting the most-verbose threshold, sets a strictly different one - and
under the default threshold a buffer-level message is filtered, which the
most-verbose threshold would let through. -/
theorem C7_not_most_verbose :
    (Logger.init []).m_LogLevel ≠
      (Logger.enableAllLog (Logger.init [])).m_LogLevel ∧
    Logger.buffer_log (Logger.init []) LOG_LEVEL_BUFFER "raw" =
      (Logger.init [], []) ∧
    (Logger.buffer_log (Logger.enableAllLog (Logger.init []))
        LOG_LEVEL_BUFFER "raw").1.fileLines = ["raw"] := by
  decide

/-- C7 amended: the constructor run by the first getInstance() call sets
the threshold to LOG_LEVEL_TRACE - the most verbose of the leveled family
fatal..trace, though it still filters buffer-level messages - and the
destination to file, keeping the lines already in the file (append mode)
and writing nothing to the console. -/
theorem C7_default_state (existing : List String) :
    (Logger.init existing).m_LogLevel = LOG_LEVEL_TRACE ∧
    (Logger.init existing).m_LogType = LogType.FILE_LOG ∧
    (Logger.init existing).fileLines = existing ∧
    (Logger.init existing).consoleLines = [] :=
  ⟨rfl, rfl, rfl, rfl⟩

/-- The format constructor (Logger.h lines 77-87): the prefix put into the
stream before any value - level tag, enclosing-scope name, "::", function
name, "() - ". -/
def Logger.format_init (scope func_name : String) (level : Int) : String :=
  Logger.getLogTypeTag level ++ scope ++ "::" ++ func_name ++ "() - "

/-- format::operator% (Logger.h line 90): append one value's text to the
stream as a space, the value, then a comma. -/
def Logger.format_pct (fmt : String) (a : String) : String :=
  fmt ++ " " ++ a ++ ","

/-- The fmt_logging recursion (Logger.h lines 93-96): fold the argument
pack left to right through operator%; the base case (lines 98-108) hands
the accumulated stream contents to the write path, so the rendered string
is the value returned here. Values are taken after their stream rendering,
as a list of strings. -/
def Logger.fmt_render (fmt : String) : List String → String
  | [] => fmt
  | a :: parameters =>
      Logger.fmt_render (Logger.format_pct fmt a) parameters

/-- Rendering of a value list in the words of the spec: each value's text
representation in strictly the argument order, one rendering per value -
none dropped, none duplicated - each followed by its separating token (a
leading space and a trailing comma in this code). -/
def formatterSpec_render : List String → String
  | [] => ""
  | a :: parameters => " " ++ a ++ "," ++ formatterSpec_render parameters

/-- C9: the formatter renders the prefix first and then the values exactly
as the spec-side rendering lists them - strictly in argument order, one
separated rendering per value - and arguments may be appended
incrementally: rendering xs and then ys equals rendering xs ++ ys. -/
theorem C9_formatter_order (fmt : String) (args more : List String) :
    Logger.fmt_render fmt args = fmt ++ formatterSpec_render args ∧
    Logger.fmt_render fmt (args ++ more) =
      Logger.fmt_render (Logger.fmt_render fmt args) more := by
  constructor
  · induction args generalizing fmt with
    | nil => simp [Logger.fmt_render, formatterSpec_render]
    | cons a rest ih =>
        simp [Logger.fmt_render, formatterSpec_render, Logger.format_pct,
          ih, String.append_assoc]
  · induction args generalizing fmt with
    | nil => rfl
    | cons a rest ih =>
        simp [Logger.fmt_render, ih]
